import Mathlib

/-!
Verification of the daily-delivery-earnings application.

The business core is the SQL function public.calculate_earnings from the
migration file: it derives four monetary fields from four raw integer
inputs using a tiered per-order rate and a volume bonus.  SQL INTEGER
arithmetic on the magnitudes involved never overflows 32 bits for
realistic inputs, and plpgsql raises on overflow rather than wrapping, so
the fields are embedded as unbounded integers.
-/

namespace DailyEarnings

/-- Result row of public.calculate_earnings (RETURNS TABLE with four
INTEGER columns). -/
structure EarningsResult where
  cash_earnings : Int
  online_earnings : Int
  bonus_earnings : Int
  total_earnings : Int
deriving Repr, DecidableEq

/-- The tiered per-order rate: the CASE expression that appears twice in
calculate_earnings (once on cash_orders, once on total_orders - cash_orders):
n * 55 when n <= 30, otherwise 30 * 55 + (n - 30) * 75. -/
def tier (n : Int) : Int :=
  if n ≤ 30 then n * 55 else 30 * 55 + (n - 30) * 75

/-- Embedding of public.calculate_earnings from the SQL migration.  Each
local follows the corresponding plpgsql assignment in order. -/
def calculate_earnings (total_orders cash_orders morning_cash evening_cash : Int) :
    EarningsResult :=
  let expected_cash : Int :=
    if cash_orders ≤ 30 then cash_orders * 55
    else 30 * 55 + (cash_orders - 30) * 75
  let actual_cash_diff : Int := evening_cash - morning_cash
  let calc_cash_earnings : Int := actual_cash_diff + expected_cash
  let calc_online_earnings : Int :=
    if total_orders - cash_orders ≤ 30 then (total_orders - cash_orders) * 55
    else 30 * 55 + ((total_orders - cash_orders) - 30) * 75
  let calc_bonus_earnings : Int :=
    if total_orders > 30 then (total_orders - 30) * 20 else 0
  let calc_total_earnings : Int :=
    calc_cash_earnings + calc_online_earnings + calc_bonus_earnings
  { cash_earnings := calc_cash_earnings
    online_earnings := calc_online_earnings
    bonus_earnings := calc_bonus_earnings
    total_earnings := calc_total_earnings }

/-- Claim C1: for every non-negative integer n the tiered rate satisfies
tier n = n * 55 when n <= 30 and tier n = 1650 + (n - 30) * 75 otherwise,
and calculate_earnings applies this same tier function both to cash_orders
(inside cash_earnings, whose order-derived component is exactly tier of
cash_orders) and to the online order count total_orders - cash_orders
(giving online_earnings). -/
theorem tier_spec_and_usage :
    (∀ n : Int, 0 ≤ n →
      tier n = if n ≤ 30 then n * 55 else 1650 + (n - 30) * 75) ∧
    (∀ t c m e : Int,
      (calculate_earnings t c m e).cash_earnings = (e - m) + tier c ∧
      (calculate_earnings t c m e).online_earnings = tier (t - c)) := by
  constructor
  · intro n _
    unfold tier
    norm_num
  · intro t c m e
    constructor <;> simp [calculate_earnings, tier]

/-- Concrete instantiation of tier_spec_and_usage at n = 35 and at the
inputs (40, 35, 100, 500). -/
theorem tier_spec_and_usage_witness :
    (0 ≤ (35 : Int) ∧
      tier 35 = if (35 : Int) ≤ 30 then 35 * 55 else 1650 + (35 - 30) * 75) ∧
    ((calculate_earnings 40 35 100 500).cash_earnings = (500 - 100) + tier 35 ∧
      (calculate_earnings 40 35 100 500).online_earnings = tier (40 - 35)) :=
  ⟨⟨by decide, tier_spec_and_usage.1 35 (by decide)⟩,
    tier_spec_and_usage.2 40 35 100 500⟩

/-- Claim C2: under the callers preconditions (0 <= cash_orders <=
total_orders, non-negative cash amounts) the calculator returns
cash_earnings = (evening_cash - morning_cash) + tier cash_orders in signed
integer arithmetic, and the value is not clamped: at total_orders =
cash_orders = 5, morning_cash = 1000, evening_cash = 0 it is negative. -/
theorem cash_earnings_signed :
    (∀ t c m e : Int, 0 ≤ c → c ≤ t → 0 ≤ m → 0 ≤ e →
      (calculate_earnings t c m e).cash_earnings = (e - m) + tier c) ∧
    (calculate_earnings 5 5 1000 0).cash_earnings < 0 := by
  constructor
  · intro t c m e _ _ _ _
    simp [calculate_earnings, tier]
  · decide

/-- Concrete instantiation of cash_earnings_signed at (5, 5, 1000, 0),
where the preconditions hold and the result is -725. -/
theorem cash_earnings_signed_witness :
    (0 ≤ (5 : Int) ∧ (5 : Int) ≤ 5 ∧ 0 ≤ (1000 : Int) ∧ 0 ≤ (0 : Int)) ∧
    (calculate_earnings 5 5 1000 0).cash_earnings = (0 - 1000) + tier 5 :=
  ⟨⟨by decide, by decide, by decide, by decide⟩,
    cash_earnings_signed.1 5 5 1000 0 (by decide) (by decide) (by decide) (by decide)⟩

/-- Claim C3: for every non-negative total_orders the calculator returns
bonus_earnings = 0 when total_orders <= 30 and (total_orders - 30) * 20
otherwise, and the bonus depends only on the combined total_orders, not on
how orders split between the payment channels. -/
theorem bonus_from_total :
    ∀ t c m e : Int, 0 ≤ t →
      (calculate_earnings t c m e).bonus_earnings =
        (if t ≤ 30 then 0 else (t - 30) * 20) ∧
      (∀ c' : Int, (calculate_earnings t c' m e).bonus_earnings =
        (calculate_earnings t c m e).bonus_earnings) := by
  intro t c m e _
  constructor
  · simp only [calculate_earnings]
    rcases lt_or_le 30 t with h | h
    · rw [if_pos h, if_neg (by omega)]
    · rw [if_neg (by omega), if_pos h]
  · intro c'
    simp [calculate_earnings]

/-- Concrete instantiation of bonus_from_total at (40, 35, 100, 500),
checked against channel split 12. -/
theorem bonus_from_total_witness :
    0 ≤ (40 : Int) ∧
    ((calculate_earnings 40 35 100 500).bonus_earnings =
        (if (40 : Int) ≤ 30 then 0 else (40 - 30) * 20) ∧
      (calculate_earnings 40 12 100 500).bonus_earnings =
        (calculate_earnings 40 35 100 500).bonus_earnings) :=
  ⟨by decide,
    ⟨(bonus_from_total 40 35 100 500 (by decide)).1,
      (bonus_from_total 40 35 100 500 (by decide)).2 12⟩⟩

/-- Claim C4: for every input, including ones violating the preconditions,
total_earnings equals cash_earnings + online_earnings + bonus_earnings. -/
theorem total_is_sum :
    ∀ t c m e : Int,
      (calculate_earnings t c m e).total_earnings =
        (calculate_earnings t c m e).cash_earnings +
          (calculate_earnings t c m e).online_earnings +
          (calculate_earnings t c m e).bonus_earnings := by
  intro t c m e
  rfl

/-- Claim C5: the calculator reproduces both worked examples of the spec
exactly. -/
theorem worked_examples :
    calculate_earnings 25 10 200 850 =
      { cash_earnings := 1200, online_earnings := 825,
        bonus_earnings := 0, total_earnings := 2025 } ∧
    calculate_earnings 40 35 100 500 =
      { cash_earnings := 2425, online_earnings := 275,
        bonus_earnings := 200, total_earnings := 2900 } := by
  decide

/-! Record storage: the daily_earnings table, its defaults and its
uniqueness constraint, the row-level-security policies, and the
client-side form pipeline from pages/Index.tsx. -/

/-- A row of public.daily_earnings as stored (the columns the claims need;
id and the timestamps are opaque to every property proved here).  Dates
are modelled as day numbers. -/
structure StoredRow where
  user_id : String
  date : Int
  morning_cash : Int
  evening_cash : Int
  total_orders : Int
  cash_orders : Int
  cash_earnings : Int
  online_earnings : Int
  bonus_earnings : Int
  total_earnings : Int
deriving Repr, DecidableEq

/-- The raw (non-derived) fields that an insert supplies. -/
structure RawInput where
  user_id : String
  date : Int
  morning_cash : Int
  evening_cash : Int
  total_orders : Int
  cash_orders : Int
deriving Repr, DecidableEq

/-- Row as first materialised by CREATE TABLE: the four derived columns
take their declared DEFAULT 0. -/
def insertDefaults (raw : RawInput) : StoredRow :=
  { user_id := raw.user_id
    date := raw.date
    morning_cash := raw.morning_cash
    evening_cash := raw.evening_cash
    total_orders := raw.total_orders
    cash_orders := raw.cash_orders
    cash_earnings := 0
    online_earnings := 0
    bonus_earnings := 0
    total_earnings := 0 }

/-- Modelled from the spec: the server-side routine triggered on write
that fills the derived columns.  The migration in the sources defines
public.calculate_earnings and the client insert passes only raw fields,
but the trigger (or later migration) attaching calculate_earnings to
INSERT is not among the source files; per the spec the derived fields are
computed at write time by an equivalent routine built on the calculator. -/
def writeTrigger (row : StoredRow) : StoredRow :=
  let r := calculate_earnings row.total_orders row.cash_orders
    row.morning_cash row.evening_cash
  { row with
    cash_earnings := r.cash_earnings
    online_earnings := r.online_earnings
    bonus_earnings := r.bonus_earnings
    total_earnings := r.total_earnings }

/-- A record created through the insert operation: defaults applied, then
the write-time computation. -/
def insertRecord (raw : RawInput) : StoredRow :=
  writeTrigger (insertDefaults raw)

/-- Claim C6: every record created through the insert operation stores
derived fields equal to the calculator applied to its raw inputs, and the
raw fields are stored unchanged; the derived fields do not remain at the
DEFAULT 0 of the table declaration whenever the calculator says
otherwise. -/
theorem insert_computes_derived :
    ∀ raw : RawInput,
      (insertRecord raw).cash_earnings =
        (calculate_earnings raw.total_orders raw.cash_orders
          raw.morning_cash raw.evening_cash).cash_earnings ∧
      (insertRecord raw).online_earnings =
        (calculate_earnings raw.total_orders raw.cash_orders
          raw.morning_cash raw.evening_cash).online_earnings ∧
      (insertRecord raw).bonus_earnings =
        (calculate_earnings raw.total_orders raw.cash_orders
          raw.morning_cash raw.evening_cash).bonus_earnings ∧
      (insertRecord raw).total_earnings =
        (calculate_earnings raw.total_orders raw.cash_orders
          raw.morning_cash raw.evening_cash).total_earnings ∧
      (insertRecord raw).user_id = raw.user_id ∧
      (insertRecord raw).date = raw.date ∧
      (insertRecord raw).morning_cash = raw.morning_cash ∧
      (insertRecord raw).evening_cash = raw.evening_cash ∧
      (insertRecord raw).total_orders = raw.total_orders ∧
      (insertRecord raw).cash_orders = raw.cash_orders := by
  intro raw
  refine ⟨rfl, rfl, rfl, rfl, rfl, rfl, rfl, rfl, rfl, rfl⟩

/-- The five numeric fields of the Dashboard form, after zod coercion to
integers. -/
structure FormValues where
  morning_cash : Int
  evening_cash : Int
  total_orders : Int
  cash_orders : Int
  online_tips : Int
deriving Repr, DecidableEq

/-- Embedding of formSchema from pages/Index.tsx: each field is an integer
with min 0, refined by cash_orders <= total_orders. -/
def formSchemaValid (v : FormValues) : Bool :=
  decide (0 ≤ v.morning_cash) && decide (0 ≤ v.evening_cash) &&
  decide (0 ≤ v.total_orders) && decide (0 ≤ v.cash_orders) &&
  decide (0 ≤ v.online_tips) && decide (v.cash_orders ≤ v.total_orders)

/-- The submission pipeline form.handleSubmit(onSubmit): per the form
library contract wired in Index.tsx, onSubmit (which issues the store
insert with the validated values) runs only when the zod resolver accepts
the values; otherwise the errors are shown per field and no call is made.
Returns the payload handed to the insert mutation, if any. -/
def submitStoreCall (v : FormValues) : Option FormValues :=
  if formSchemaValid v then some v else none

/-- Claim C7: any submission with a negative field or with cash_orders >
total_orders is rejected by validation and produces no store call; in
particular cash_orders = 11 with total_orders = 10 never reaches the
insert operation. -/
theorem validation_blocks_store_call :
    (∀ v : FormValues,
      (v.morning_cash < 0 ∨ v.evening_cash < 0 ∨ v.total_orders < 0 ∨
        v.cash_orders < 0 ∨ v.online_tips < 0 ∨
        v.total_orders < v.cash_orders) →
      submitStoreCall v = none) ∧
    submitStoreCall
      { morning_cash := 0, evening_cash := 0, total_orders := 10,
        cash_orders := 11, online_tips := 0 } = none := by
  constructor
  · intro v hbad
    unfold submitStoreCall formSchemaValid
    rcases hbad with h | h | h | h | h | h <;>
      simp [decide_eq_true_eq, not_le.mpr h]
  · decide

/-- Concrete instantiation of validation_blocks_store_call at the input
with cash_orders = 11 and total_orders = 10. -/
theorem validation_blocks_store_call_witness :
    ((10 : Int) < 11) ∧
    submitStoreCall
      { morning_cash := 0, evening_cash := 0, total_orders := 10,
        cash_orders := 11, online_tips := 0 } = none :=
  ⟨by decide,
    validation_blocks_store_call.1
      { morning_cash := 0, evening_cash := 0, total_orders := 10,
        cash_orders := 11, online_tips := 0 }
      (Or.inr (Or.inr (Or.inr (Or.inr (Or.inr (by decide))))))⟩

/-! Row-level security.  The four policies of the migration gate each
command with the literal condition user_id = "denis"; none of them
mentions the identity of the requesting account. -/

/-- SELECT policy: USING (user_id = "denis").  The requester argument is
what the claim says the policy should consult; the source condition does
not use it. -/
def rlsSelectAllows (_requester : String) (row_user : String) : Bool :=
  row_user == "denis"

/-- INSERT policy: WITH CHECK (user_id = "denis"), checked against the new
row. -/
def rlsInsertAllows (_requester : String) (new_row_user : String) : Bool :=
  new_row_user == "denis"

/-- UPDATE policy: USING (user_id = "denis"). -/
def rlsUpdateAllows (_requester : String) (row_user : String) : Bool :=
  row_user == "denis"

/-- DELETE policy: USING (user_id = "denis"). -/
def rlsDeleteAllows (_requester : String) (row_user : String) : Bool :=
  row_user == "denis"

/-- Claim C8 fails on the code: the policies compare the row owner against
the fixed string "denis" and ignore the requester, so a row owned by the
account "denis" is visible, updatable and deletable by the distinct
account "alice", while the insert the client actually issues (user_id set
to the session account, here "alice") is rejected even for its own row. -/
theorem rls_ignores_requester :
    rlsSelectAllows "alice" "denis" = true ∧
    rlsUpdateAllows "alice" "denis" = true ∧
    rlsDeleteAllows "alice" "denis" = true ∧
    "alice" ≠ "denis" ∧
    rlsInsertAllows "alice" "alice" = false := by
  refine ⟨rfl, rfl, rfl, by decide, rfl⟩

/-! The weekly chart of the Dashboard.  Instants are modelled as UTC epoch
milliseconds: new Date() is the current instant nowMs, and new Date on a
stored yyyy-MM-dd string is midnight of that day, date * dayMs. -/

/-- Milliseconds in a day. -/
def dayMs : Int := 86400000

/-- The client-side Earnings row type of pages/Index.tsx, with the date as
a day number. -/
structure Earnings where
  id : String
  date : Int
  morning_cash : Int
  evening_cash : Int
  total_orders : Int
  cash_orders : Int
  total_earnings : Int
  cash_earnings : Int
  online_tips : Int
  online_earnings : Int
  bonus_earnings : Int
deriving Repr, DecidableEq

/-- One bar of the weekly chart: the axis label is the formatted date
(kept here as the day number), celkem is total_earnings and dyska is
cash_earnings + online_tips, as mapped in chartData. -/
structure ChartEntry where
  date : Int
  celkem : Int
  dyska : Int
deriving Repr, DecidableEq

/-- The map step of chartData. -/
def chartEntryOf (e : Earnings) : ChartEntry :=
  { date := e.date
    celkem := e.total_earnings
    dyska := e.cash_earnings + e.online_tips }

/-- Embedding of chartData from pages/Index.tsx: filter the fetched list
by new Date(e.date) >= subDays(new Date(), 7), map to the bar fields, then
reverse. -/
def chartData (nowMs : Int) (earnings : List Earnings) : List ChartEntry :=
  ((earnings.filter
      (fun e => decide (nowMs - 7 * dayMs ≤ e.date * dayMs))).map
    chartEntryOf).reverse

/-- Claim C9 as stated fails at the exact midnight instant: at nowMs =
7 * dayMs (midnight of day 7) the record dated day 0 passes the filter and
appears in the chart, although day 0 is older than today - 6 = 1. -/
theorem chart_window_midnight_cex :
    (chartData (7 * dayMs)
        [{ id := "a", date := 0, morning_cash := 0, evening_cash := 0,
           total_orders := 0, cash_orders := 0, total_earnings := 0,
           cash_earnings := 0, online_tips := 0, online_earnings := 0,
           bonus_earnings := 0 }]).map ChartEntry.date = [0] ∧
    ¬ ((7 : Int) - 6 ≤ 0) := by
  constructor
  · rfl
  · decide

/-- Claim C9 amended: write the current instant as d * dayMs + s with
0 < s < dayMs (any instant strictly after midnight of day d).  Then the
weekly chart consists of exactly the fetched records with date >= d - 6,
mapped to bars and reversed, and, the fetched list being date-descending,
the chart is in ascending date order.  (At s = 0 exactly, the code also
admits the record dated d - 7.) -/
theorem chart_window_and_order (d s : Int) (hs0 : 0 < s) (hs1 : s < dayMs)
    (earnings : List Earnings)
    (hdesc : earnings.Pairwise (fun a b => b.date ≤ a.date)) :
    chartData (d * dayMs + s) earnings =
      ((earnings.filter (fun e => decide (d - 6 ≤ e.date))).map
        chartEntryOf).reverse ∧
    (chartData (d * dayMs + s) earnings).Pairwise
      (fun a b => a.date ≤ b.date) := by
  have hfil :
      earnings.filter
          (fun e => decide (d * dayMs + s - 7 * dayMs ≤ e.date * dayMs)) =
        earnings.filter (fun e => decide (d - 6 ≤ e.date)) := by
    apply List.filter_congr
    intro e _
    simp only [decide_eq_decide]
    simp only [dayMs] at *
    omega
  have hchart :
      chartData (d * dayMs + s) earnings =
        ((earnings.filter (fun e => decide (d - 6 ≤ e.date))).map
          chartEntryOf).reverse := by
    unfold chartData
    rw [hfil]
  refine ⟨hchart, ?_⟩
  rw [hchart, List.pairwise_reverse, List.pairwise_map]
  exact (hdesc.filter (fun e => decide (d - 6 ≤ e.date))).imp (fun h => h)

/-- A one-record fetched list used to instantiate the chart theorem: the
record is dated day 9. -/
def sampleFetched : List Earnings :=
  [{ id := "b", date := 9, morning_cash := 0, evening_cash := 0,
     total_orders := 0, cash_orders := 0, total_earnings := 7,
     cash_earnings := 3, online_tips := 2, online_earnings := 0,
     bonus_earnings := 0 }]

/-- Concrete instantiation of chart_window_and_order: day 10 one
millisecond after midnight, a single fetched record dated day 9. -/
theorem chart_window_and_order_witness :
    ((0 : Int) < 1 ∧ (1 : Int) < dayMs ∧
      sampleFetched.Pairwise (fun a b => b.date ≤ a.date)) ∧
    (chartData (10 * dayMs + 1) sampleFetched =
      ((sampleFetched.filter
          (fun e => decide ((10 : Int) - 6 ≤ e.date))).map
        chartEntryOf).reverse ∧
      (chartData (10 * dayMs + 1) sampleFetched).Pairwise
        (fun a b => a.date ≤ b.date)) :=
  ⟨⟨by decide, by decide, by simp [sampleFetched]⟩,
    chart_window_and_order 10 1 (by decide) (by decide) sampleFetched
      (by simp [sampleFetched])⟩

/-! The insert path of the Dashboard and the uniqueness constraint
UNIQUE(user_id, date) of the daily_earnings table. -/

/-- The row the insert mutation of pages/Index.tsx sends: the validated
form values spread together with date set to the current day and user_id
set to the session account. -/
structure ClientInsertRow where
  user_id : String
  date : Int
  morning_cash : Int
  evening_cash : Int
  total_orders : Int
  cash_orders : Int
  online_tips : Int
deriving Repr, DecidableEq

/-- Row construction of insertMutation: the form carries no date field, so
date is always the current day at submission time. -/
def buildInsertRow (sessionUserId : String) (today : Int) (v : FormValues) :
    ClientInsertRow :=
  { user_id := sessionUserId
    date := today
    morning_cash := v.morning_cash
    evening_cash := v.evening_cash
    total_orders := v.total_orders
    cash_orders := v.cash_orders
    online_tips := v.online_tips }

/-- Failure modes of the store relevant here. -/
inductive StoreError where
  | uniqueViolation
deriving Repr, DecidableEq

/-- The UNIQUE(user_id, date) constraint of CREATE TABLE daily_earnings:
an insert fails with a uniqueness violation when a stored row already
carries the same (user_id, date) pair, and otherwise appends the row. -/
def storeInsert (rows : List ClientInsertRow) (r : ClientInsertRow) :
    Except StoreError (List ClientInsertRow) :=
  if rows.any (fun x => x.user_id == r.user_id && decide (x.date = r.date)) then
    Except.error StoreError.uniqueViolation
  else
    Except.ok (rows ++ [r])

/-- Claim C10: every row the Dashboard inserts is dated the current day
regardless of the form values, so after one successful submission by an
account on a day, any second submission by the same account on the same
day hits the uniqueness constraint and the insert fails. -/
theorem insert_date_is_today_and_unique :
    (∀ (u : String) (today : Int) (v : FormValues),
      (buildInsertRow u today v).date = today ∧
      (buildInsertRow u today v).user_id = u) ∧
    (∀ (rows rows₂ : List ClientInsertRow) (u : String) (today : Int)
        (v₁ v₂ : FormValues),
      storeInsert rows (buildInsertRow u today v₁) = Except.ok rows₂ →
      storeInsert rows₂ (buildInsertRow u today v₂) =
        Except.error StoreError.uniqueViolation) := by
  constructor
  · intro u today v
    exact ⟨rfl, rfl⟩
  · intro rows rows₂ u today v₁ v₂ h
    unfold storeInsert at h
    by_cases hc :
        rows.any (fun x =>
          x.user_id == (buildInsertRow u today v₁).user_id &&
            decide (x.date = (buildInsertRow u today v₁).date)) = true
    · rw [if_pos hc] at h
      exact absurd h (by simp)
    · rw [if_neg hc] at h
      have hrows : rows ++ [buildInsertRow u today v₁] = rows₂ := by
        injection h
      unfold storeInsert
      rw [if_pos ?_]
      rw [← hrows]
      simp [buildInsertRow]

/-- Concrete instantiation of insert_date_is_today_and_unique: the account
alice submits twice on day 20000 starting from an empty store; the first
insert succeeds and the second fails with the uniqueness violation. -/
theorem insert_date_is_today_and_unique_witness :
    storeInsert [] (buildInsertRow "alice" 20000 ⟨0, 0, 0, 0, 0⟩) =
      Except.ok [buildInsertRow "alice" 20000 ⟨0, 0, 0, 0, 0⟩] ∧
    storeInsert [buildInsertRow "alice" 20000 ⟨0, 0, 0, 0, 0⟩]
        (buildInsertRow "alice" 20000 ⟨1, 2, 3, 3, 0⟩) =
      Except.error StoreError.uniqueViolation :=
  ⟨rfl,
    insert_date_is_today_and_unique.2 []
      [buildInsertRow "alice" 20000 ⟨0, 0, 0, 0, 0⟩] "alice" 20000
      ⟨0, 0, 0, 0, 0⟩ ⟨1, 2, 3, 3, 0⟩ rfl⟩

end DailyEarnings
